import Mathlib

/-!
# Verification of the wizlight library core against its specification

This file gives a shallow embedding, in Lean 4, of the parts of the
wizlight Python library that the specification claims talk about:

* `src/wizlight/pilot.py`    — `PilotBuilder` (command construction,
  clamping, scene resolution) and the `PilotParser` getters;
* `src/wizlight/effects.py`  — the scene registry;
* `src/wizlight/protocol.py` — the retry client `UDPClient.send`;
* `src/wizlight/devices.py`  — `detect_bulb_type` and its tables;
* `src/wizlight/bulb.py`     — the white-channel post-processing in
  `wizlight.get_bulbtype`;
* `src/wizlight/push.py`     — `PushManager.subscribe`, the disposer it
  returns, and `PushManager._handle_sync_pilot`.

Python numbers that flow into the builder are modelled by `PyNum`: either a
genuine `int` or an opaque non-integer value carrying only its Python
truthiness (`bool(x)`), which is what the source consults via `x or 0`.
Fallible construction is modelled with `Except`. Dictionaries whose key sets
are fixed by the source are modelled as structures of `Option` fields;
dictionaries with dynamic keys (push subscriber registry, JSON maps) are
modelled as insertion-ordered association lists.
-/

namespace Wiz

/-! ## Errors (src/wizlight/exceptions.py) -/

inductive WizError where
  | invalidParameter
  | commandError
  | connectionError
  | timeoutError
deriving DecidableEq

/-! ## Scene registry (src/wizlight/effects.py, lines 13-54 and 117-122) -/

/-- `SCENES` dict of effects.py: scene ID to display name, in source order. -/
def SCENES : List (Int × String) :=
  [(1, "Ocean"), (2, "Romance"), (3, "Sunset"), (4, "Party"),
   (5, "Fireplace"), (6, "Cozy"), (7, "Forest"), (8, "Pastel colors"),
   (9, "Wake-up"), (10, "Bedtime"), (11, "Warm white"), (12, "Daylight"),
   (13, "Cool white"), (14, "Night light"), (15, "Focus"), (16, "Relax"),
   (17, "True colors"), (18, "TV time"), (19, "Plantgrowth"), (20, "Spring"),
   (21, "Summer"), (22, "Fall"), (23, "Deep dive"), (24, "Jungle"),
   (25, "Mojito"), (26, "Club"), (27, "Christmas"), (28, "Halloween"),
   (29, "Candlelight"), (30, "Golden white"), (31, "Pulse"), (32, "Steampunk"),
   (33, "Diwali"), (34, "White"), (35, "Alarm"), (36, "Snowy sky"),
   (1000, "Rhythm")]

/-- Python `str.lower`, restricted to the ASCII data that occurs here. -/
def pyLower (s : String) : String :=
  String.mk (s.data.map Char.toLower)

/-- Python `str.upper`, restricted to the ASCII data that occurs here. -/
def pyUpper (s : String) : String :=
  String.mk (s.data.map Char.toUpper)

/-- `scene in SCENES` of pilot.py line 94 (membership among the dict keys). -/
def sceneIdValid (i : Int) : Bool :=
  SCENES.any (fun p => p.1 == i)

/-- `get_id_from_scene_name` (effects.py lines 117-122): the `_NAME_TO_ID`
dict maps lowercased display names to IDs; the lowercased names are pairwise
distinct, so a first-match scan of `SCENES` is the same function. -/
def get_id_from_scene_name (name : String) : Option Int :=
  (SCENES.find? (fun p => pyLower p.2 == pyLower name)).map (fun p => p.1)

/-! ## PilotBuilder (src/wizlight/pilot.py, lines 35-145) -/

/-- A Python value handed to a numeric builder parameter: a genuine `int`,
or any non-integer value of which the builder only ever observes its
truthiness (through `x or 0`) before `_clamp` rejects it. -/
inductive PyNum where
  | int (i : Int)
  | other (truthy : Bool)
deriving DecidableEq

/-- The `scene` argument: an `int` scene ID or a `str` scene name. -/
inductive SceneArg where
  | id (i : Int)
  | name (s : String)
deriving DecidableEq

/-- The keyword arguments of `PilotBuilder.__init__` (pilot.py lines 35-51),
in source order. Tuple arguments are lists of `PyNum`. -/
structure BuilderArgs where
  state : Bool := true
  brightness : Option PyNum := none
  r : Option PyNum := none
  g : Option PyNum := none
  b : Option PyNum := none
  rgbw : Option (List PyNum) := none
  rgbww : Option (List PyNum) := none
  colortemp : Option PyNum := none
  scene : Option SceneArg := none
  speed : Option PyNum := none
  ratio : Option PyNum := none
  warm_white : Option PyNum := none
  cold_white : Option PyNum := none
deriving DecidableEq

/-- The `_params` dict produced by the builder. Its key set is fixed by the
source, so presence of each key is an `Option` field. -/
structure PilotParams where
  state : Bool
  sceneId : Option Int := none
  r : Option Int := none
  g : Option Int := none
  b : Option Int := none
  w : Option Int := none
  c : Option Int := none
  temp : Option Int := none
  dimming : Option Int := none
  speed : Option Int := none
  ratio : Option Int := none
deriving DecidableEq

instance {ε α : Type} [DecidableEq ε] [DecidableEq α] :
    DecidableEq (Except ε α) := fun a b =>
  match a, b with
  | .ok x, .ok y =>
    if h : x = y then .isTrue (by rw [h]) else .isFalse (by simp [h])
  | .error x, .error y =>
    if h : x = y then .isTrue (by rw [h]) else .isFalse (by simp [h])
  | .ok _, .error _ => .isFalse (by simp)
  | .error _, .ok _ => .isFalse (by simp)

/-- `max(min_val, min(max_val, value))` of `_clamp` (pilot.py line 136). -/
def clampInt (v lo hi : Int) : Int :=
  max lo (min hi v)

/-- `PilotBuilder._clamp` (pilot.py lines 131-136): raises
`WizLightInvalidParameter` on a non-`int`, otherwise clamps. -/
def clamp (v : PyNum) (lo hi : Int) : Except WizError Int :=
  match v with
  | .int i => .ok (clampInt i lo hi)
  | .other _ => .error .invalidParameter

/-- `x or 0` applied to an optional channel argument (pilot.py lines 68-70):
`None` and falsy values yield the int `0`; truthy non-int values survive to
be rejected by `_clamp`. A nonzero int survives as itself and `0 or 0` is
`0`, so genuine ints pass through unchanged. -/
def orZero : Option PyNum → PyNum
  | none => .int 0
  | some (.int i) => .int i
  | some (.other t) => if t then .other true else .int 0

/-- `PilotBuilder._resolve_scene` (pilot.py lines 91-105). -/
def resolve_scene : SceneArg → Except WizError Int
  | .id i => if sceneIdValid i then .ok i else .error .invalidParameter
  | .name s =>
    match get_id_from_scene_name s with
    | some i => .ok i
    | none => .error .invalidParameter

/-- `PilotBuilder._set_rgbw` (pilot.py lines 107-116): result is the clamped
`(r, g, b)` and the optional `w`. -/
def set_rgbw (t : List PyNum) : Except WizError (Int × Int × Int × Option Int) :=
  match t with
  | t0 :: t1 :: t2 :: rest =>
    match clamp t0 0 255 with
    | .error e => .error e
    | .ok rv =>
      match clamp t1 0 255 with
      | .error e => .error e
      | .ok gv =>
        match clamp t2 0 255 with
        | .error e => .error e
        | .ok bv =>
          match rest with
          | [] => .ok (rv, gv, bv, none)
          | w0 :: _ =>
            match clamp w0 0 255 with
            | .error e => .error e
            | .ok wv => .ok (rv, gv, bv, some wv)
  | _ => .error .invalidParameter

/-- `PilotBuilder._set_rgbww` (pilot.py lines 118-129): clamped `(r, g, b)`
plus the optional `w` (index 3) and `c` (index 4). -/
def set_rgbww (t : List PyNum) :
    Except WizError (Int × Int × Int × Option Int × Option Int) :=
  match t with
  | t0 :: t1 :: t2 :: rest =>
    match clamp t0 0 255 with
    | .error e => .error e
    | .ok rv =>
      match clamp t1 0 255 with
      | .error e => .error e
      | .ok gv =>
        match clamp t2 0 255 with
        | .error e => .error e
        | .ok bv =>
          match rest with
          | [] => .ok (rv, gv, bv, none, none)
          | w0 :: rest2 =>
            match clamp w0 0 255 with
            | .error e => .error e
            | .ok wv =>
              match rest2 with
              | [] => .ok (rv, gv, bv, some wv, none)
              | c0 :: _ =>
                match clamp c0 0 255 with
                | .error e => .error e
                | .ok cv => .ok (rv, gv, bv, some wv, some cv)
  | _ => .error .invalidParameter

/-- The mode-selection cascade of `__init__` (pilot.py lines 57-77):
`scene` > `rgbww` > `rgbw` > bare `r/g/b` > `colortemp`. The result is the
`_params` dict before the mode-independent keys are added. -/
def modeParams (a : BuilderArgs) : Except WizError PilotParams :=
  match a.scene with
  | some sc =>
    match resolve_scene sc with
    | .error e => .error e
    | .ok sid => .ok { state := true, sceneId := some sid }
  | none =>
    match a.rgbww with
    | some t =>
      match set_rgbww t with
      | .error e => .error e
      | .ok (rv, gv, bv, wv, cv) =>
        .ok { state := true, r := some rv, g := some gv, b := some bv,
              w := wv, c := cv }
    | none =>
      match a.rgbw with
      | some t =>
        match set_rgbw t with
        | .error e => .error e
        | .ok (rv, gv, bv, wv) =>
          .ok { state := true, r := some rv, g := some gv, b := some bv,
                w := wv }
      | none =>
        if a.r.isSome || a.g.isSome || a.b.isSome then
          match clamp (orZero a.r) 0 255 with
          | .error e => .error e
          | .ok rv =>
            match clamp (orZero a.g) 0 255 with
            | .error e => .error e
            | .ok gv =>
              match clamp (orZero a.b) 0 255 with
              | .error e => .error e
              | .ok bv =>
                match a.warm_white with
                | some vw =>
                  match clamp vw 0 255 with
                  | .error e => .error e
                  | .ok wv =>
                    match a.cold_white with
                    | some vc =>
                      match clamp vc 0 255 with
                      | .error e => .error e
                      | .ok cv =>
                        .ok { state := true, r := some rv, g := some gv,
                              b := some bv, w := some wv, c := some cv }
                    | none =>
                      .ok { state := true, r := some rv, g := some gv,
                            b := some bv, w := some wv }
                | none =>
                  match a.cold_white with
                  | some vc =>
                    match clamp vc 0 255 with
                    | .error e => .error e
                    | .ok cv =>
                      .ok { state := true, r := some rv, g := some gv,
                            b := some bv, c := some cv }
                  | none =>
                    .ok { state := true, r := some rv, g := some gv,
                          b := some bv }
        else
          match a.colortemp with
          | some v =>
            match clamp v 1000 10000 with
            | .error e => .error e
            | .ok tv => .ok { state := true, temp := some tv }
          | none => .ok { state := true }

/-- `if brightness is not None: ... dimming` (pilot.py lines 80-81). -/
def stepBrightness (x : Option PyNum) (p : PilotParams) :
    Except WizError PilotParams :=
  match x with
  | some v =>
    match clamp v 10 255 with
    | .error e => .error e
    | .ok d => .ok { p with dimming := some d }
  | none => .ok p

/-- `if speed is not None: ...` (pilot.py lines 84-85). -/
def stepSpeed (x : Option PyNum) (p : PilotParams) :
    Except WizError PilotParams :=
  match x with
  | some v =>
    match clamp v 1 200 with
    | .error e => .error e
    | .ok s => .ok { p with speed := some s }
  | none => .ok p

/-- `if ratio is not None: ...` (pilot.py lines 88-89). -/
def stepRatio (x : Option PyNum) (p : PilotParams) :
    Except WizError PilotParams :=
  match x with
  | some v =>
    match clamp v 0 100 with
    | .error e => .error e
    | .ok rv => .ok { p with ratio := some rv }
  | none => .ok p

/-- The mode-independent tail of `__init__` (pilot.py lines 79-89):
brightness, then speed, then ratio. -/
def applyCommon (a : BuilderArgs) (p : PilotParams) :
    Except WizError PilotParams :=
  match stepBrightness a.brightness p with
  | .error e => .error e
  | .ok p1 =>
    match stepSpeed a.speed p1 with
    | .error e => .error e
    | .ok p2 => stepRatio a.ratio p2

/-- `PilotBuilder.__init__` (pilot.py lines 35-89): the produced `_params`
dict, or the raised error. `state=False` short-circuits at line 54. -/
def build (a : BuilderArgs) : Except WizError PilotParams :=
  match a.state with
  | false => .ok { state := false }
  | true =>
    match modeParams a with
    | .error e => .error e
    | .ok base => applyCommon a base

/-! ## PilotParser (src/wizlight/pilot.py, lines 148-293)

Response dicts have dynamic keys, so they are modelled as association
lists of JSON values. Numbers are rationals (Python ints and floats as they
occur in pilot payloads). -/

inductive JVal where
  | s (v : String)
  | n (v : ℚ)
  | b (v : Bool)
deriving DecidableEq

abbrev JMap := List (String × JVal)

/-- Python `dict.get(k)`: first binding wins (dicts hold unique keys). -/
def jLookup (m : JMap) (k : String) : Option JVal :=
  (m.find? (fun p => p.1 == k)).map (fun p => p.2)

/-- Python truthiness `bool(v)` of a JSON scalar. -/
def jTruthy : JVal → Bool
  | .n q => q != 0
  | .b t => t
  | .s s => s != ""

/-- Python `float(v)` for the values that reach it in `get_power`; a
non-numeric string would raise `ValueError`, which is outside the model. -/
def jToFloat : JVal → Option ℚ
  | .n q => some q
  | .b t => some (if t then 1 else 0)
  | .s _ => none

/-- Truncation toward zero, Python `int()` on a float. -/
def ratTrunc (q : ℚ) : Int :=
  if q < 0 then -((-q).floor) else q.floor

/-- Python `int(v)` for pilot payload scalars; a non-numeric string would
raise, which is outside the model. -/
def jToInt : JVal → Option Int
  | .n q => some (ratTrunc q)
  | .b t => some (if t then 1 else 0)
  | .s _ => none

/-- `PilotParser.get_state` (pilot.py lines 162-164):
`bool(result.get("state", False))`. -/
def get_state (m : JMap) : Bool :=
  match jLookup m "state" with
  | some v => jTruthy v
  | none => false

/-- `PilotParser.get_brightness` (pilot.py lines 173-178). -/
def get_brightness (m : JMap) : Option Int :=
  match jLookup m "dimming" with
  | some v => jToInt v
  | none => none

/-- `PilotParser.get_power` (pilot.py lines 166-171):
`power = result.get("pc") or result.get("w")`, then `float(power)` unless
`power is None`. The `or` is Python truthiness: a present-but-falsy `pc`
(for example `0`) falls through to `w`. -/
def get_power (m : JMap) : Option ℚ :=
  match
    (match jLookup m "pc" with
     | some v => if jTruthy v then some v else jLookup m "w"
     | none => jLookup m "w") with
  | some v => jToFloat v
  | none => none

/-! ## Retry client (src/wizlight/protocol.py, lines 30-31 and 108-153)

`UDPClient.send` walks the retry schedule; each attempt either fails with a
timeout / connection error or yields a decoded response dict. The network is
modelled as an oracle giving the outcome of attempt number `k`; sleeping is
not modelled (the delays only drive the number of attempts). Response dicts
are association lists; `"error" in response` is a key-set test. -/

inductive AttemptFailure where
  | timeout
  | connError
deriving DecidableEq

inductive AttemptResult where
  | fail (f : AttemptFailure)
  | resp (r : JMap)
deriving DecidableEq

inductive SendOutcome where
  | okResp (r : JMap)
  | cmdError (r : JMap)
  | timeoutErr (lastCause : Option AttemptFailure)
deriving DecidableEq

structure SendResult where
  attemptsMade : Nat
  outcome : SendOutcome
deriving DecidableEq

/-- `_RETRY_DELAYS` (protocol.py line 30). -/
def RETRY_DELAYS : List ℚ := [0, 0.5, 1.5, 3.0, 6.0]

/-- `"error" in response` (protocol.py line 144). -/
def hasErrorKey (r : JMap) : Bool :=
  r.any (fun p => p.1 == "error")

/-- The retry loop of `UDPClient.send` (protocol.py lines 132-153): walk the
remaining delays, consuming one oracle attempt per entry; `k` counts the
attempts already made and `last` is the last recorded retryable cause. -/
def sendAux (oracle : Nat → AttemptResult) :
    List ℚ → Nat → Option AttemptFailure → SendResult
  | [], k, last => { attemptsMade := k, outcome := .timeoutErr last }
  | _d :: rest, k, _last =>
    match oracle k with
    | .fail f => sendAux oracle rest (k + 1) (some f)
    | .resp r =>
      if hasErrorKey r then
        { attemptsMade := k + 1, outcome := .cmdError r }
      else
        { attemptsMade := k + 1, outcome := .okResp r }

/-- `UDPClient.send` with the default schedule. -/
def send (oracle : Nat → AttemptResult) : SendResult :=
  sendAux oracle RETRY_DELAYS 0 none

/-! ## Device detection (src/wizlight/models.py and devices.py) -/

inductive BulbClass where
  | RGB
  | TW
  | DW
  | SOCKET
  | FANDIM
deriving DecidableEq

/-- `Features` dataclass (models.py lines 27-38). -/
structure Features where
  color : Bool := false
  brightness : Bool := true
  color_temp : Bool := false
  effect : Bool := false
  dual_head : Bool := false
  fan : Bool := false
  fan_reverse : Bool := false
  fan_breeze_mode : Bool := false
deriving DecidableEq

/-- `KelvinRange` dataclass (models.py lines 51-56). -/
structure KelvinRange where
  min : Int := 2200
  max : Int := 6500
deriving DecidableEq

/-- `BulbType` dataclass (models.py lines 59-74); note the default
`white_channels = 1`. -/
structure BulbType where
  bulb_type : BulbClass := .RGB
  name : String := ""
  features : Features := {}
  kelvin_range : Option KelvinRange := none
  fw_version : String := ""
  white_channels : Nat := 1
  white_to_color_ratio : Nat := 20
  fan_speed_range : Option Nat := none
deriving DecidableEq

/-- `s2 in s1` on raw character lists: `needle` occurs contiguously. -/
def isPrefixCL : List Char → List Char → Bool
  | [], _ => true
  | _ :: _, [] => false
  | a :: as, b :: bs => a == b && isPrefixCL as bs

def containsCL (hay needle : List Char) : Bool :=
  match hay with
  | [] => needle.isEmpty
  | _ :: t => isPrefixCL needle hay || containsCL t needle

/-- Python `needle in hay` for strings. -/
def pyIn (needle hay : String) : Bool :=
  containsCL hay.data needle.data

/-- `_MODULE_PATTERNS` (devices.py lines 15-106), in source order. -/
def MODULE_PATTERNS : List (String × BulbClass × Features × Option KelvinRange) :=
  [("FANDIM", .FANDIM,
    { color := false, brightness := true, color_temp := false, effect := true,
      fan := true, fan_reverse := true, fan_breeze_mode := true }, none),
   ("SOCKET", .SOCKET,
    { color := false, brightness := false, color_temp := false, effect := false }, none),
   ("RGBWW", .RGB,
    { color := true, brightness := true, color_temp := true, effect := true },
    some { min := 2200, max := 6500 }),
   ("RGBW", .RGB,
    { color := true, brightness := true, color_temp := true, effect := true },
    some { min := 2200, max := 6500 }),
   ("RGB", .RGB,
    { color := true, brightness := true, color_temp := false, effect := true }, none),
   ("TW", .TW,
    { color := false, brightness := true, color_temp := true, effect := true },
    some { min := 2700, max := 6500 }),
   ("DW", .DW,
    { color := false, brightness := true, color_temp := false, effect := true }, none),
   ("SHTW", .TW,
    { color := false, brightness := true, color_temp := true, effect := true },
    some { min := 2700, max := 6500 }),
   ("DHTW", .TW,
    { color := false, brightness := true, color_temp := true, effect := true },
    some { min := 2700, max := 6500 }),
   ("SHRGB", .RGB,
    { color := true, brightness := true, color_temp := true, effect := true },
    some { min := 2200, max := 6500 }),
   ("DHRGB", .RGB,
    { color := true, brightness := true, color_temp := true, effect := true },
    some { min := 2200, max := 6500 })]

/-- `_KNOWN_MODULES` (devices.py lines 109-127). -/
def KNOWN_MODULES : List (String × BulbClass × Option KelvinRange) :=
  [("ESP01_SHRGB1C_31", .RGB, some { min := 2200, max := 6500 }),
   ("ESP01_SHRGB3_01ABI", .RGB, some { min := 2200, max := 6500 }),
   ("ESP01_SHDW1_31", .DW, none),
   ("ESP01_SHTW1C_31", .TW, some { min := 2700, max := 6500 }),
   ("ESP03_SHRGB1C_01", .RGB, some { min := 2200, max := 6500 }),
   ("ESP03_SHRGB1W_01ABI", .RGB, some { min := 2200, max := 6500 }),
   ("ESP03_SHRGBP_31ABI", .RGB, some { min := 2200, max := 6500 }),
   ("ESP06_SHDW1_01", .DW, none),
   ("ESP06_SHDW9_01", .DW, none),
   ("ESP06_SHTW1_01", .TW, some { min := 2700, max := 6500 }),
   ("ESP06_SHTW9_01", .TW, some { min := 2700, max := 6500 }),
   ("ESP14_SHRGB1C_01ABI", .RGB, some { min := 2200, max := 6500 }),
   ("ESP15_SHRGB1C_01ABI", .RGB, some { min := 2200, max := 6500 }),
   ("ESP17_SHRGB9W_01ABI", .RGB, some { min := 2200, max := 6500 }),
   ("ESP20_SHRGB9W_01ABI", .RGB, some { min := 2200, max := 6500 }),
   ("ESP21_SHTW9_01", .TW, some { min := 2700, max := 6500 }),
   ("ESP56_SHTW11_01", .TW, some { min := 2700, max := 6500 })]

/-- `module_name in _KNOWN_MODULES` plus `_KNOWN_MODULES[module_name]`. -/
def lookupKnown (name : String) : Option (BulbClass × Option KelvinRange) :=
  (KNOWN_MODULES.find? (fun e => e.1 == name)).map (fun e => e.2)

/-- The `white_range` argument: a dict of which only the `min`/`max` keys
are consulted (`white_range and "min" in white_range and "max" in
white_range`, devices.py lines 146 and 160; a dict holding both keys is
nonempty, hence truthy). -/
structure WRange where
  min : Option Int := none
  max : Option Int := none
deriving DecidableEq

def overrideKelvin (wr : Option WRange) (kel : Option KelvinRange) :
    Option KelvinRange :=
  match wr with
  | some w =>
    match w.min, w.max with
    | some mn, some mx => some { min := mn, max := mx }
    | _, _ => kel
  | none => kel

/-- `_features_for_class` (devices.py lines 186-206). -/
def features_for_class : BulbClass → Features
  | .RGB => { color := true, brightness := true, color_temp := true, effect := true }
  | .TW => { color := false, brightness := true, color_temp := true, effect := true }
  | .DW => { color := false, brightness := true, color_temp := false, effect := true }
  | .SOCKET => { color := false, brightness := false, color_temp := false, effect := false }
  | .FANDIM =>
    { color := false, brightness := true, color_temp := false, effect := true,
      fan := true, fan_reverse := true, fan_breeze_mode := true }

/-- First pattern whose key occurs in the uppercased name (devices.py
lines 157-158). -/
def findPattern (name_upper : String) :
    List (String × BulbClass × Features × Option KelvinRange) →
    Option (BulbClass × Features × Option KelvinRange)
  | [] => none
  | (pat, cls, f, kel) :: rest =>
    if pyIn pat name_upper then some (cls, f, kel)
    else findPattern name_upper rest

/-- The explicit `Features(...)` copy in the pattern branch (devices.py
lines 165-173): seven fields copied, `dual_head` left at its default. -/
def copyFeatures (f : Features) : Features :=
  { color := f.color, brightness := f.brightness, color_temp := f.color_temp,
    effect := f.effect, fan := f.fan, fan_reverse := f.fan_reverse,
    fan_breeze_mode := f.fan_breeze_mode }

/-- `detect_bulb_type` (devices.py lines 130-183). -/
def detect_bulb_type (module_name : String) (white_range : Option WRange) :
    BulbType :=
  let name_upper := pyUpper module_name
  match lookupKnown module_name with
  | some (cls, kel) =>
    { bulb_type := cls, name := module_name,
      features := features_for_class cls,
      kelvin_range := overrideKelvin white_range kel }
  | none =>
    match findPattern name_upper MODULE_PATTERNS with
    | some (cls, f, kel) =>
      { bulb_type := cls, name := module_name, features := copyFeatures f,
        kelvin_range := overrideKelvin white_range kel }
    | none =>
      { bulb_type := .RGB, name := module_name,
        features := { color := true, brightness := true, color_temp := true,
                      effect := true },
        kelvin_range := some { min := 2200, max := 6500 } }

/-- `wizlight.get_bulbtype` (bulb.py lines 122-143) restricted to its pure
part: run the detector, then the white-channel post-processing on the
uppercased module name. (Setting `fw_version` from the config and caching
the MAC touch no field this development reasons about.) -/
def get_bulbtype (module_name : String) (white_range : Option WRange) :
    BulbType :=
  let bt := detect_bulb_type module_name white_range
  let name_upper := pyUpper module_name
  if pyIn "RGBWW" name_upper then { bt with white_channels := 2 }
  else if pyIn "RGBW" name_upper then { bt with white_channels := 1 }
  else bt

/-! ## Push manager (src/wizlight/push.py, lines 92-165)

Callbacks are identified by numeric tokens; the subscriber registry is the
insertion-ordered dict `_subscribers`, modelled as an association list with
unique keys. -/

abbrev Subscribers := List (String × List Nat)

/-- The MAC normalization of `subscribe` (push.py line 104):
`mac.lower().replace(":", "").replace("-", "")`. For the single-character
patterns involved this is: lowercase every character and drop every `:`
and `-`. -/
def normalizeMacSub (mac : String) : String :=
  String.mk (((mac.data.map Char.toLower).filter
    (fun ch => !(ch == ':' || ch == '-'))))

/-- `subscribe` (push.py lines 104-107) acting on the registry: create the
key's list if absent, then append the callback. -/
def subAux (key : String) (cb : Nat) : Subscribers → Subscribers
  | [] => [(key, [cb])]
  | (k, l) :: rest =>
    if k == key then (k, l ++ [cb]) :: rest
    else (k, l) :: subAux key cb rest

def subscribe (mac : String) (cb : Nat) (subs : Subscribers) : Subscribers :=
  subAux (normalizeMacSub mac) cb subs

/-- `list.remove(x)` under `contextlib.suppress(ValueError)` (push.py
lines 113-114): drop the first occurrence, or do nothing. -/
def removeFirst (cb : Nat) : List Nat → List Nat
  | [] => []
  | x :: xs => if x == cb then xs else x :: removeFirst cb xs

/-- The disposer closure returned by `subscribe` (push.py lines 109-118):
if the key is present, remove one occurrence of the callback and delete the
key when its list empties. On an association list with unique keys this is
exactly the first-entry update below. -/
def unsubAux (key : String) (cb : Nat) : Subscribers → Subscribers
  | [] => []
  | (k, l) :: rest =>
    if k == key then
      let l2 := removeFirst cb l
      if l2.isEmpty then rest else (k, l2) :: rest
    else (k, l) :: unsubAux key cb rest

def unsubscribe (mac : String) (cb : Nat) (subs : Subscribers) : Subscribers :=
  unsubAux (normalizeMacSub mac) cb subs

/-- `self._subscribers.get(mac, [])` (push.py line 160). -/
def getCallbacks (subs : Subscribers) (key : String) : List Nat :=
  match subs.find? (fun p => p.1 == key) with
  | some p => p.2
  | none => []

/-- `PushManager._handle_sync_pilot` (push.py lines 150-165): extract
`params.get("mac", "")`, lowercase it (no separator stripping), bail out on
an empty MAC, then invoke every callback registered under that key with a
`PilotParser` over `params`. The result lists the invocations in order as
(callback, wrapped params). -/
def handle_sync_pilot (subs : Subscribers) (params : JMap) :
    List (Nat × JMap) :=
  let mac := pyLower (match jLookup params "mac" with
    | some (.s v) => v
    | _ => "")
  if mac == "" then []
  else (getCallbacks subs mac).map (fun cb => (cb, params))

/-! ## Theorems -/

/-- **C6.** For every `PilotBuilder` built with `state=false`, the produced
params mapping equals exactly `{"state": false}`, regardless of all other
arguments — including arguments that would be invalid when `state=true`,
which are silently dropped without raising (pilot.py lines 52-55 return
before any other argument is examined). -/
theorem c6_state_false (a : BuilderArgs) (h : a.state = false) :
    build a = .ok { state := false } := by
  unfold build
  rw [h]

/-- Witness for `c6_state_false`: an unknown scene name and a non-integer
brightness are dropped without raising when `state=false`. -/
theorem c6_state_false_witness :
    build { state := false, scene := some (.name "NotAScene"),
            brightness := some (.other true) } = .ok { state := false } :=
  c6_state_false
    { state := false, scene := some (.name "NotAScene"),
      brightness := some (.other true) } rfl

/-- **C7.** The builder clamps rather than rejects out-of-range integers:
`brightness` into `[10,255]` as `dimming`, `colortemp` into `[1000,10000]`
as `temp`, `speed` into `[1,200]`, `ratio` into `[0,100]`, and the
`r`/`g`/`b`/`w`/`c` channels into `[0,255]`; an in-range value is emitted
unchanged. -/
theorem c7_clamping :
    (∀ br sp ra ct : Int,
      build { state := true, brightness := some (.int br),
              speed := some (.int sp), ratio := some (.int ra),
              colortemp := some (.int ct) } =
        .ok { state := true, temp := some (clampInt ct 1000 10000),
              dimming := some (clampInt br 10 255),
              speed := some (clampInt sp 1 200),
              ratio := some (clampInt ra 0 100) })
    ∧ (∀ rv gv bv wv cv : Int,
      build { state := true, r := some (.int rv), g := some (.int gv),
              b := some (.int bv), warm_white := some (.int wv),
              cold_white := some (.int cv) } =
        .ok { state := true, r := some (clampInt rv 0 255),
              g := some (clampInt gv 0 255), b := some (clampInt bv 0 255),
              w := some (clampInt wv 0 255), c := some (clampInt cv 0 255) })
    ∧ (∀ v lo hi : Int, lo ≤ v → v ≤ hi → clampInt v lo hi = v) := by
  refine ⟨fun br sp ra ct => rfl, fun rv gv bv wv cv => rfl,
          fun v lo hi h1 h2 => ?_⟩
  unfold clampInt
  rw [min_eq_right h2, max_eq_right h1]

/-- Witness for `c7_clamping`: an in-range value survives unchanged. -/
theorem c7_clamping_witness : clampInt 128 10 255 = 128 :=
  c7_clamping.2.2 128 10 255 (by decide) (by decide)

/-- **C5.** For every module name exactly matching a known-modules table
entry, `detect_bulb_type` returns a descriptor whose `name` is the input
and whose class is the table's class; and supplying a `white_range` with
`min` and `max` replaces only the Kelvin range relative to the same call
without `white_range`. -/
theorem c5_known_module_detect (name : String) (cls : BulbClass)
    (kel : Option KelvinRange) (wr : Option WRange) (mn mx : Int)
    (h : lookupKnown name = some (cls, kel)) :
    ((detect_bulb_type name wr).name = name
      ∧ (detect_bulb_type name wr).bulb_type = cls)
    ∧ detect_bulb_type name (some { min := some mn, max := some mx }) =
        { detect_bulb_type name none with
            kelvin_range := some { min := mn, max := mx } } := by
  unfold detect_bulb_type
  rw [h]
  exact ⟨⟨rfl, rfl⟩, rfl⟩

/-- Witness for `c5_known_module_detect` at the table entry
`ESP01_SHRGB3_01ABI`. -/
theorem c5_known_module_detect_witness :
    ((detect_bulb_type "ESP01_SHRGB3_01ABI" none).name = "ESP01_SHRGB3_01ABI"
      ∧ (detect_bulb_type "ESP01_SHRGB3_01ABI" none).bulb_type = .RGB)
    ∧ detect_bulb_type "ESP01_SHRGB3_01ABI"
        (some { min := some 2700, max := some 5000 }) =
        { detect_bulb_type "ESP01_SHRGB3_01ABI" none with
            kelvin_range := some { min := 2700, max := 5000 } } :=
  c5_known_module_detect "ESP01_SHRGB3_01ABI" .RGB
    (some { min := 2200, max := 6500 }) none 2700 5000 rfl

/-- `detect_bulb_type` never touches `white_channels`: every branch builds
the record with the dataclass default `1` (models.py line 72). -/
theorem detect_white_channels_default (name : String) (wr : Option WRange) :
    (detect_bulb_type name wr).white_channels = 1 := by
  unfold detect_bulb_type
  rcases h : lookupKnown name with _ | p
  · simp only [h]
    rcases h2 : findPattern (pyUpper name) MODULE_PATTERNS with _ | q
    · simp only [h2]
    · rcases q with ⟨cls, f, kel⟩
      simp only [h2]
  · rcases p with ⟨cls, kel⟩
    simp only [h]

/-- **C4 counterexample.** The claim expects `white_channels = 0` for a
module name containing neither `RGBWW` nor `RGBW`
(`detect("ESP01_SHRGB3_01ABI", {min:2700,max:5000})`), but the detector
leaves the dataclass default `white_channels = 1` and the `get_bulbtype`
post-processing only ever assigns `2` or `1`. -/
theorem c4_counterexample :
    (get_bulbtype "ESP01_SHRGB3_01ABI"
        (some { min := some 2700, max := some 5000 })).white_channels = 1
    ∧ (get_bulbtype "ESP01_SHRGB3_01ABI"
        (some { min := some 2700, max := some 5000 })).white_channels ≠ 0 := by
  constructor
  · decide
  · decide

/-- **C4 (amended).** After `get_bulbtype`'s post-processing, the white
channel count is `2` when the uppercased module name contains `"RGBWW"`
and `1` in every other case — both when it contains `"RGBW"` (explicitly
assigned, bulb.py line 136) and otherwise (the `BulbType` dataclass default,
models.py line 72). It is never `0`. -/
theorem c4_white_channels_amended (name : String) (wr : Option WRange) :
    (get_bulbtype name wr).white_channels =
      if pyIn "RGBWW" (pyUpper name) then 2 else 1 := by
  unfold get_bulbtype
  cases h1 : pyIn "RGBWW" (pyUpper name)
  · cases h2 : pyIn "RGBW" (pyUpper name)
    · simp only [h1, h2, Bool.false_eq_true, if_false]
      exact detect_white_channels_default name wr
    · simp only [h1, h2, Bool.false_eq_true, if_false, if_true]
  · simp only [h1, if_true]

/-- **C10 counterexample.** The claim says that whenever `pc` is present —
including `pc = 0` — `get_power` returns `float(pc)` and never consults
`w`. But pilot.py line 168 computes `result.get("pc") or result.get("w")`,
and Python's `or` is truthiness-based: on `{"pc": 0, "w": 5}` the code
returns `5.0`, not `0.0`. -/
theorem c10_counterexample :
    get_power [("pc", .n 0), ("w", .n 5)] = some 5
    ∧ get_power [("pc", .n 0), ("w", .n 5)] ≠ some 0 := by
  constructor
  · rfl
  · decide

/-- **C10 (amended).** `get_power` returns `float(pc)` when `pc` is present
and nonzero; when `pc` is absent **or zero** it falls back to `w`
(returning `float(w)` when `w` is present, `None` when it is absent). -/
theorem c10_get_power_amended :
    (∀ (m : JMap) (q : ℚ), jLookup m "pc" = some (.n q) → q ≠ 0 →
      get_power m = some q)
    ∧ (∀ (m : JMap) (q : ℚ), jLookup m "pc" = some (.n 0) →
      jLookup m "w" = some (.n q) → get_power m = some q)
    ∧ (∀ m : JMap, jLookup m "pc" = some (.n 0) → jLookup m "w" = none →
      get_power m = none)
    ∧ (∀ (m : JMap) (q : ℚ), jLookup m "pc" = none →
      jLookup m "w" = some (.n q) → get_power m = some q)
    ∧ (∀ m : JMap, jLookup m "pc" = none → jLookup m "w" = none →
      get_power m = none) := by
  refine ⟨?_, ?_, ?_, ?_, ?_⟩
  · intro m q hpc hq
    simp [get_power, hpc, jTruthy, jToFloat, hq]
  · intro m q hpc hw
    simp [get_power, hpc, hw, jTruthy, jToFloat]
  · intro m hpc hw
    simp [get_power, hpc, hw, jTruthy]
  · intro m q hpc hw
    simp [get_power, hpc, hw, jToFloat]
  · intro m hpc hw
    simp [get_power, hpc, hw]

/-- Witness for `c10_get_power_amended`: a nonzero `pc` wins over `w`. -/
theorem c10_get_power_amended_witness :
    get_power [("pc", .n 3), ("w", .n 5)] = some 3 :=
  c10_get_power_amended.1 [("pc", .n 3), ("w", .n 5)] 3 rfl (by norm_num)

/-- **C3 counterexample.** Subscribing under `aabbccddeeff` and delivering
a `syncPilot` datagram whose `params.mac` is `AA:BB:CC:DD:EE:FF` invokes
no callback: `_handle_sync_pilot` (push.py line 153) only lowercases the
datagram MAC and never strips `:`/`-`, so the lookup key
`aa:bb:cc:dd:ee:ff` misses the normalized subscription key. The claim
expects one invocation. -/
theorem c3_counterexample :
    handle_sync_pilot (subscribe "aabbccddeeff" 7 [])
      [("mac", .s "AA:BB:CC:DD:EE:FF"), ("state", .b true),
       ("dimming", .n 100)] = [] := by
  decide

/-- **C3 (amended).** Subscription-side MAC normalization is
case-insensitive and strips `:`/`-`, but dispatch only lowercases the
datagram MAC. A datagram whose `params.mac` is the separator-free
`AABBCCDDEEFF` (any case) invokes the callback subscribed under
`aabbccddeeff` exactly once, with a parser over the datagram's params
reporting `state=true` and `brightness=100`; the colon-separated
`AA:BB:CC:DD:EE:FF` of the original claim invokes nothing. -/
theorem c3_dispatch_amended (cb : Nat) :
    handle_sync_pilot (subscribe "aabbccddeeff" cb [])
      [("mac", .s "AABBCCDDEEFF"), ("state", .b true), ("dimming", .n 100)]
      = [(cb, [("mac", .s "AABBCCDDEEFF"), ("state", .b true),
               ("dimming", .n 100)])]
    ∧ handle_sync_pilot (subscribe "aabbccddeeff" cb [])
      [("mac", .s "AA:BB:CC:DD:EE:FF"), ("state", .b true),
       ("dimming", .n 100)] = []
    ∧ get_state [("mac", .s "AABBCCDDEEFF"), ("state", .b true),
                 ("dimming", .n 100)] = true
    ∧ get_brightness [("mac", .s "AABBCCDDEEFF"), ("state", .b true),
                      ("dimming", .n 100)] = some 100 := by
  refine ⟨rfl, rfl, rfl, by decide⟩

/-- **C2.** The retry client's `send`: the delay schedule has exactly 5
entries; if every attempt before attempt `k` ended in a timeout or
connection error and attempt `k` yields a response containing an `error`
key, `send` raises command-error immediately after `k + 1` attempts (no
further attempts); if all 5 attempts end in a timeout or connection error,
`send` makes exactly 5 attempts and raises timeout-error chained from the
last recorded cause. -/
theorem c2_retry_classification (oracle : Nat → AttemptResult) :
    RETRY_DELAYS.length = 5
    ∧ (∀ (k : Nat) (r : JMap), k < 5 →
        (∀ j, j < k → ∃ f, oracle j = .fail f) →
        oracle k = .resp r → hasErrorKey r = true →
        send oracle = { attemptsMade := k + 1, outcome := .cmdError r })
    ∧ ((∀ j, j < 5 → ∃ f, oracle j = .fail f) →
        ∃ f, oracle 4 = .fail f
          ∧ send oracle = { attemptsMade := 5,
                            outcome := .timeoutErr (some f) }) := by
  refine ⟨rfl, ?_, ?_⟩
  · intro k r hk hfail hkresp herr
    interval_cases k
    · simp [send, RETRY_DELAYS, sendAux, hkresp, herr]
    · obtain ⟨f0, h0⟩ := hfail 0 (by omega)
      simp [send, RETRY_DELAYS, sendAux, h0, hkresp, herr]
    · obtain ⟨f0, h0⟩ := hfail 0 (by omega)
      obtain ⟨f1, h1⟩ := hfail 1 (by omega)
      simp [send, RETRY_DELAYS, sendAux, h0, h1, hkresp, herr]
    · obtain ⟨f0, h0⟩ := hfail 0 (by omega)
      obtain ⟨f1, h1⟩ := hfail 1 (by omega)
      obtain ⟨f2, h2⟩ := hfail 2 (by omega)
      simp [send, RETRY_DELAYS, sendAux, h0, h1, h2, hkresp, herr]
    · obtain ⟨f0, h0⟩ := hfail 0 (by omega)
      obtain ⟨f1, h1⟩ := hfail 1 (by omega)
      obtain ⟨f2, h2⟩ := hfail 2 (by omega)
      obtain ⟨f3, h3⟩ := hfail 3 (by omega)
      simp [send, RETRY_DELAYS, sendAux, h0, h1, h2, h3, hkresp, herr]
  · intro hfail
    obtain ⟨f0, h0⟩ := hfail 0 (by omega)
    obtain ⟨f1, h1⟩ := hfail 1 (by omega)
    obtain ⟨f2, h2⟩ := hfail 2 (by omega)
    obtain ⟨f3, h3⟩ := hfail 3 (by omega)
    obtain ⟨f4, h4⟩ := hfail 4 (by omega)
    exact ⟨f4, h4, by simp [send, RETRY_DELAYS, sendAux, h0, h1, h2, h3, h4]⟩

/-- Witness for `c2_retry_classification`: a transport that times out once
and then reports a device error fails with command-error on attempt 2, and
a transport that never responds exhausts exactly 5 attempts and fails with
timeout-error chained from the connection error. -/
theorem c2_retry_classification_witness :
    send (fun k => if k == 1 then .resp [("error", .n 3)] else .fail .timeout)
      = { attemptsMade := 2, outcome := .cmdError [("error", .n 3)] }
    ∧ send (fun _ => .fail .connError)
      = { attemptsMade := 5, outcome := .timeoutErr (some .connError) } := by
  constructor
  · exact (c2_retry_classification _).2.1 1 [("error", .n 3)] (by omega)
      (fun j hj => ⟨.timeout, by
        have hj0 : j = 0 := by omega
        rw [hj0]
        rfl⟩) rfl rfl
  · obtain ⟨f, hf, hs⟩ :=
      (c2_retry_classification (fun _ => .fail .connError)).2.2
        (fun j _ => ⟨.connError, rfl⟩)
    have : AttemptFailure.connError = f := by injection hf
    rw [← this] at hs
    exact hs

/-! ### C9: push unsubscription -/

/-- The subscriber registry models a Python dict, whose keys are unique. -/
abbrev keysNodup (subs : Subscribers) : Prop :=
  (subs.map (fun p => p.1)).Nodup

theorem unsubAux_cons (key : String) (cb : Nat) (k : String) (l : List Nat)
    (rest : Subscribers) :
    unsubAux key cb ((k, l) :: rest) =
      if k == key then
        (if (removeFirst cb l).isEmpty then rest
         else (k, removeFirst cb l) :: rest)
      else (k, l) :: unsubAux key cb rest := rfl

/-- `removeFirst` leaves a list without the element untouched. -/
theorem removeFirst_of_count_zero {cb : Nat} :
    ∀ {l : List Nat}, l.count cb = 0 → removeFirst cb l = l := by
  intro l
  induction l with
  | nil => intro _; rfl
  | cons x xs ih =>
    intro h
    rw [List.count_cons] at h
    by_cases hx : (x == cb) = true
    · exfalso
      rw [if_pos hx] at h
      omega
    · rw [if_neg hx] at h
      show (if (x == cb) = true then xs else x :: removeFirst cb xs) = x :: xs
      rw [if_neg hx, ih (by omega)]

/-- After removing one occurrence from a list that held at most one, none
remain. -/
theorem count_removeFirst_le_one {cb : Nat} :
    ∀ {l : List Nat}, l.count cb ≤ 1 → (removeFirst cb l).count cb = 0 := by
  intro l
  induction l with
  | nil => intro _; rfl
  | cons x xs ih =>
    intro h
    rw [List.count_cons] at h
    by_cases hx : (x == cb) = true
    · rw [if_pos hx] at h
      show List.count cb (if (x == cb) = true then xs else _) = 0
      rw [if_pos hx]
      exact List.count_eq_zero.mpr (by
        intro hmem
        have := List.count_pos_iff.mpr hmem
        omega)
    · rw [if_neg hx] at h
      show List.count cb (if (x == cb) = true then xs else x :: removeFirst cb xs) = 0
      rw [if_neg hx, List.count_cons, ih (by omega), if_neg hx]

/-- On a registry whose keys avoid `key`, the disposer is the identity. -/
theorem unsubAux_of_key_absent {key : String} {cb : Nat} :
    ∀ {subs : Subscribers}, (∀ q ∈ subs, (q.1 == key) = false) →
      unsubAux key cb subs = subs := by
  intro subs
  induction subs with
  | nil => intro _; rfl
  | cons p rest ih =>
    intro h
    rcases p with ⟨k, l⟩
    rw [unsubAux_cons]
    have hk : (k == key) = false := h (k, l) (List.mem_cons_self _ _)
    rw [if_neg (by rw [hk]; exact Bool.false_ne_true),
        ih (fun q hq => h q (List.mem_cons_of_mem _ hq))]

/-- Core of the amended C9: on a dict-shaped registry, double disposal is
idempotent as long as the callback occurs at most once under the key. -/
theorem unsubAux_idem {key : String} {cb : Nat} :
    ∀ {subs : Subscribers}, keysNodup subs →
      (getCallbacks subs key).count cb ≤ 1 →
      unsubAux key cb (unsubAux key cb subs) = unsubAux key cb subs := by
  intro subs
  induction subs with
  | nil => intro _ _; rfl
  | cons p rest ih =>
    intro hnd hcnt
    rcases p with ⟨k, l⟩
    have hnd' : keysNodup rest := by
      simp only [keysNodup, List.map_cons, List.nodup_cons] at hnd
      exact hnd.2
    by_cases hk : (k == key) = true
    · have hkey : k = key := by simpa using hk
      have hcl : (getCallbacks ((k, l) :: rest) key) = l := by
        simp [getCallbacks, List.find?, hk]
      rw [hcl] at hcnt
      have hknotin : ∀ q ∈ rest, (q.1 == key) = false := by
        intro q hq
        simp only [keysNodup, List.map_cons, List.nodup_cons] at hnd
        by_contra hne
        have hqk : (q.1 == key) = true := by
          cases hb : (q.1 == key)
          · exact absurd hb hne
          · rfl
        have hq1 : q.1 = key := by simpa using hqk
        exact hnd.1 (by
          rw [hkey, ← hq1]
          exact List.mem_map_of_mem _ hq)
      rw [unsubAux_cons, if_pos hk]
      by_cases hemp : (removeFirst cb l).isEmpty = true
      · rw [if_pos hemp]
        exact unsubAux_of_key_absent hknotin
      · rw [if_neg hemp, unsubAux_cons, if_pos hk,
            removeFirst_of_count_zero (count_removeFirst_le_one hcnt),
            if_neg hemp]
    · have hcl : getCallbacks ((k, l) :: rest) key = getCallbacks rest key := by
        simp only [getCallbacks, List.find?]
        cases hb : (k == key)
        · rfl
        · exact absurd hb hk
      rw [hcl] at hcnt
      rw [unsubAux_cons, if_neg hk, unsubAux_cons, if_neg hk, ih hnd' hcnt]

/-- **C9 counterexample.** Subscribing the same callback twice under one
MAC stacks two list entries; calling one disposer twice removes **two**
occurrences (each call removes the first occurrence under
`contextlib.suppress(ValueError)`), so the second invocation does not leave
the registry as it was after the first: after one call the registry is
`{"aa": [1]}`, after two it is `{}`. -/
theorem c9_counterexample :
    unsubscribe "aa" 1 (unsubscribe "aa" 1
        (subscribe "aa" 1 (subscribe "aa" 1 []))) ≠
      unsubscribe "aa" 1 (subscribe "aa" 1 (subscribe "aa" 1 [])) := by
  decide

/-- **C9 (amended).** Double-unsubscribe is idempotent whenever the
disposed callback occurs at most once under its (normalized) MAC key —
in particular whenever it was not subscribed more than once there. When
the same callback is stacked, a second disposer call removes a further
occurrence instead. -/
theorem c9_double_unsubscribe_amended (subs : Subscribers) (mac : String)
    (cb : Nat) (hnd : keysNodup subs)
    (hcnt : (getCallbacks subs (normalizeMacSub mac)).count cb ≤ 1) :
    unsubscribe mac cb (unsubscribe mac cb subs) = unsubscribe mac cb subs :=
  unsubAux_idem hnd hcnt

/-- Witness for `c9_double_unsubscribe_amended` on a registry holding one
subscription. -/
theorem c9_double_unsubscribe_amended_witness :
    unsubscribe "aabbccddeeff" 1 (unsubscribe "aabbccddeeff" 1
        (subscribe "aabbccddeeff" 1 [])) =
      unsubscribe "aabbccddeeff" 1 (subscribe "aabbccddeeff" 1 []) :=
  c9_double_unsubscribe_amended (subscribe "aabbccddeeff" 1 [])
    "aabbccddeeff" 1 (by decide) (by decide)

/-! ### C1: mutual exclusion of modes -/

/-- The params mapping carries the keys of exactly one mode: `{sceneId}`,
or `{r,g,b}` optionally with `{w}`/`{c}`, or `{temp}`, or none of them. -/
def ModeKeysOf (p : PilotParams) : Prop :=
  (p.sceneId.isSome = true ∧ p.r = none ∧ p.g = none ∧ p.b = none
    ∧ p.w = none ∧ p.c = none ∧ p.temp = none)
  ∨ (p.sceneId = none ∧ p.r.isSome = true ∧ p.g.isSome = true
    ∧ p.b.isSome = true ∧ p.temp = none)
  ∨ (p.sceneId = none ∧ p.r = none ∧ p.g = none ∧ p.b = none ∧ p.w = none
    ∧ p.c = none ∧ p.temp.isSome = true)
  ∨ (p.sceneId = none ∧ p.r = none ∧ p.g = none ∧ p.b = none ∧ p.w = none
    ∧ p.c = none ∧ p.temp = none)

/-- The mode is chosen by the priority
`scene` > `rgbww` > `rgbw` > bare `r/g/b` > `colortemp`: whichever
highest-priority argument is given contributes its keys, and the keys of
every lower-priority mode are absent. -/
def PriorityRespected (a : BuilderArgs) (p : PilotParams) : Prop :=
  (∀ sc, a.scene = some sc →
    p.sceneId.isSome = true ∧ p.r = none ∧ p.g = none ∧ p.b = none
      ∧ p.w = none ∧ p.c = none ∧ p.temp = none)
  ∧ (∀ t, a.scene = none → a.rgbww = some t →
    p.sceneId = none ∧ p.r.isSome = true ∧ p.g.isSome = true
      ∧ p.b.isSome = true ∧ p.temp = none)
  ∧ (∀ t, a.scene = none → a.rgbww = none → a.rgbw = some t →
    p.sceneId = none ∧ p.r.isSome = true ∧ p.g.isSome = true
      ∧ p.b.isSome = true ∧ p.c = none ∧ p.temp = none)
  ∧ (a.scene = none → a.rgbww = none → a.rgbw = none →
      (a.r.isSome || a.g.isSome || a.b.isSome) = true →
    p.sceneId = none ∧ p.r.isSome = true ∧ p.g.isSome = true
      ∧ p.b.isSome = true ∧ p.temp = none)
  ∧ (∀ v, a.scene = none → a.rgbww = none → a.rgbw = none →
      a.r = none → a.g = none → a.b = none → a.colortemp = some v →
    p.sceneId = none ∧ p.r = none ∧ p.g = none ∧ p.b = none ∧ p.w = none
      ∧ p.c = none ∧ p.temp.isSome = true)
  ∧ (a.scene = none → a.rgbww = none → a.rgbw = none →
      a.r = none → a.g = none → a.b = none → a.colortemp = none →
    p.sceneId = none ∧ p.r = none ∧ p.g = none ∧ p.b = none ∧ p.w = none
      ∧ p.c = none ∧ p.temp = none)

theorem stepBrightness_ok_fields {x : Option PyNum} {p q : PilotParams}
    (h : stepBrightness x p = .ok q) :
    q.state = p.state ∧ q.sceneId = p.sceneId ∧ q.r = p.r ∧ q.g = p.g
      ∧ q.b = p.b ∧ q.w = p.w ∧ q.c = p.c ∧ q.temp = p.temp := by
  cases x with
  | none =>
    simp only [stepBrightness] at h
    injection h with h2
    subst h2
    exact ⟨rfl, rfl, rfl, rfl, rfl, rfl, rfl, rfl⟩
  | some v =>
    cases v with
    | int i =>
      simp only [stepBrightness, clamp] at h
      injection h with h2
      subst h2
      exact ⟨rfl, rfl, rfl, rfl, rfl, rfl, rfl, rfl⟩
    | other t =>
      simp only [stepBrightness, clamp] at h
      simp at h

theorem stepSpeed_ok_fields {x : Option PyNum} {p q : PilotParams}
    (h : stepSpeed x p = .ok q) :
    q.state = p.state ∧ q.sceneId = p.sceneId ∧ q.r = p.r ∧ q.g = p.g
      ∧ q.b = p.b ∧ q.w = p.w ∧ q.c = p.c ∧ q.temp = p.temp := by
  cases x with
  | none =>
    simp only [stepSpeed] at h
    injection h with h2
    subst h2
    exact ⟨rfl, rfl, rfl, rfl, rfl, rfl, rfl, rfl⟩
  | some v =>
    cases v with
    | int i =>
      simp only [stepSpeed, clamp] at h
      injection h with h2
      subst h2
      exact ⟨rfl, rfl, rfl, rfl, rfl, rfl, rfl, rfl⟩
    | other t =>
      simp only [stepSpeed, clamp] at h
      simp at h

theorem stepRatio_ok_fields {x : Option PyNum} {p q : PilotParams}
    (h : stepRatio x p = .ok q) :
    q.state = p.state ∧ q.sceneId = p.sceneId ∧ q.r = p.r ∧ q.g = p.g
      ∧ q.b = p.b ∧ q.w = p.w ∧ q.c = p.c ∧ q.temp = p.temp := by
  cases x with
  | none =>
    simp only [stepRatio] at h
    injection h with h2
    subst h2
    exact ⟨rfl, rfl, rfl, rfl, rfl, rfl, rfl, rfl⟩
  | some v =>
    cases v with
    | int i =>
      simp only [stepRatio, clamp] at h
      injection h with h2
      subst h2
      exact ⟨rfl, rfl, rfl, rfl, rfl, rfl, rfl, rfl⟩
    | other t =>
      simp only [stepRatio, clamp] at h
      simp at h

/-- The mode-independent tail only touches `dimming`, `speed` and `ratio`:
every other key of the params dict is preserved. -/
theorem applyCommon_ok_fields {a : BuilderArgs} {p q : PilotParams}
    (h : applyCommon a p = .ok q) :
    q.state = p.state ∧ q.sceneId = p.sceneId ∧ q.r = p.r ∧ q.g = p.g
      ∧ q.b = p.b ∧ q.w = p.w ∧ q.c = p.c ∧ q.temp = p.temp := by
  unfold applyCommon at h
  cases h1 : stepBrightness a.brightness p with
  | error e =>
    simp only [h1] at h
    exact Except.noConfusion h
  | ok p1 =>
    simp only [h1] at h
    cases h2 : stepSpeed a.speed p1 with
    | error e =>
      simp only [h2] at h
      exact Except.noConfusion h
    | ok p2 =>
      simp only [h2] at h
      obtain ⟨b1, b2, b3, b4, b5, b6, b7, b8⟩ := stepBrightness_ok_fields h1
      obtain ⟨s1, s2, s3, s4, s5, s6, s7, s8⟩ := stepSpeed_ok_fields h2
      obtain ⟨r1, r2, r3, r4, r5, r6, r7, r8⟩ := stepRatio_ok_fields h
      exact ⟨r1.trans (s1.trans b1), r2.trans (s2.trans b2),
             r3.trans (s3.trans b3), r4.trans (s4.trans b4),
             r5.trans (s5.trans b5), r6.trans (s6.trans b6),
             r7.trans (s7.trans b7), r8.trans (s8.trans b8)⟩

/-- **C1.** For every `PilotBuilder` built with `state=true` that succeeds,
the produced params mapping contains the keys of exactly one mode —
`{sceneId}`, or `{r,g,b}` optionally with `{w}`/`{c}`, or `{temp}`, or
none — chosen by the priority `scene` > `rgbww` > `rgbw` > bare `r/g/b` >
`colortemp`, with the keys of every lower-priority mode argument absent. -/
theorem c1_exactly_one_mode (a : BuilderArgs) (out : PilotParams)
    (hs : a.state = true) (hb : build a = .ok out) :
    ModeKeysOf out ∧ PriorityRespected a out := by
  unfold build at hb
  rw [hs] at hb
  cases hm : modeParams a with
  | error e =>
    simp only [hm] at hb
    exact Except.noConfusion hb
  | ok base =>
    simp only [hm] at hb
    obtain ⟨f1, f2, f3, f4, f5, f6, f7, f8⟩ := applyCommon_ok_fields hb
    cases hsc : a.scene with
    | some sc =>
      simp only [modeParams, hsc] at hm
      cases hr : resolve_scene sc with
      | error e => simp [hr] at hm
      | ok sid =>
        simp only [hr] at hm
        injection hm with hbase
        subst hbase
        exact ⟨by simp_all [ModeKeysOf], by
                            simp only [PriorityRespected]
                            refine ⟨?_, ?_, ?_, ?_, ?_, ?_⟩ <;> intros <;>
                              simp_all⟩
    | none =>
      cases hww : a.rgbww with
      | some t =>
        simp only [modeParams, hsc, hww] at hm
        cases hsr : set_rgbww t with
        | error e => simp [hsr] at hm
        | ok tup =>
          obtain ⟨rv, gv, bv, wv, cv⟩ := tup
          simp only [hsr] at hm
          injection hm with hbase
          subst hbase
          exact ⟨by simp_all [ModeKeysOf], by
                            simp only [PriorityRespected]
                            refine ⟨?_, ?_, ?_, ?_, ?_, ?_⟩ <;> intros <;>
                              simp_all⟩
      | none =>
        cases hrw : a.rgbw with
        | some t =>
          simp only [modeParams, hsc, hww, hrw] at hm
          cases hsr : set_rgbw t with
          | error e => simp [hsr] at hm
          | ok tup =>
            obtain ⟨rv, gv, bv, wv⟩ := tup
            simp only [hsr] at hm
            injection hm with hbase
            subst hbase
            exact ⟨by simp_all [ModeKeysOf], by
                            simp only [PriorityRespected]
                            refine ⟨?_, ?_, ?_, ?_, ?_, ?_⟩ <;> intros <;>
                              simp_all⟩
        | none =>
          cases hbare : (a.r.isSome || a.g.isSome || a.b.isSome) with
          | true =>
            simp only [modeParams, hsc, hww, hrw, hbare, if_true] at hm
            cases hcr : clamp (orZero a.r) 0 255 with
            | error e => simp [hcr] at hm
            | ok rv =>
              simp only [hcr] at hm
              cases hcg : clamp (orZero a.g) 0 255 with
              | error e => simp [hcg] at hm
              | ok gv =>
                simp only [hcg] at hm
                cases hcb : clamp (orZero a.b) 0 255 with
                | error e => simp [hcb] at hm
                | ok bv =>
                  simp only [hcb] at hm
                  cases hwa : a.warm_white with
                  | some vw =>
                    simp only [hwa] at hm
                    cases hcw : clamp vw 0 255 with
                    | error e => simp [hcw] at hm
                    | ok wv =>
                      simp only [hcw] at hm
                      cases hca : a.cold_white with
                      | some vc =>
                        simp only [hca] at hm
                        cases hcc : clamp vc 0 255 with
                        | error e => simp [hcc] at hm
                        | ok cv =>
                          simp only [hcc] at hm
                          injection hm with hbase
                          subst hbase
                          exact ⟨by simp_all [ModeKeysOf], by
                            simp only [PriorityRespected]
                            refine ⟨?_, ?_, ?_, ?_, ?_, ?_⟩ <;> intros <;>
                              simp_all⟩
                      | none =>
                        simp only [hca] at hm
                        injection hm with hbase
                        subst hbase
                        exact ⟨by simp_all [ModeKeysOf], by
                            simp only [PriorityRespected]
                            refine ⟨?_, ?_, ?_, ?_, ?_, ?_⟩ <;> intros <;>
                              simp_all⟩
                  | none =>
                    simp only [hwa] at hm
                    cases hca : a.cold_white with
                    | some vc =>
                      simp only [hca] at hm
                      cases hcc : clamp vc 0 255 with
                      | error e => simp [hcc] at hm
                      | ok cv =>
                        simp only [hcc] at hm
                        injection hm with hbase
                        subst hbase
                        exact ⟨by simp_all [ModeKeysOf], by
                            simp only [PriorityRespected]
                            refine ⟨?_, ?_, ?_, ?_, ?_, ?_⟩ <;> intros <;>
                              simp_all⟩
                    | none =>
                      simp only [hca] at hm
                      injection hm with hbase
                      subst hbase
                      exact ⟨by simp_all [ModeKeysOf], by
                            simp only [PriorityRespected]
                            refine ⟨?_, ?_, ?_, ?_, ?_, ?_⟩ <;> intros <;>
                              simp_all⟩
          | false =>
            simp only [modeParams, hsc, hww, hrw, hbare, Bool.false_eq_true,
                       if_false] at hm
            cases hct : a.colortemp with
            | some v =>
              simp only [hct] at hm
              cases hcv : clamp v 1000 10000 with
              | error e => simp [hcv] at hm
              | ok tv =>
                simp only [hcv] at hm
                injection hm with hbase
                subst hbase
                exact ⟨by simp_all [ModeKeysOf], by
                            simp only [PriorityRespected]
                            refine ⟨?_, ?_, ?_, ?_, ?_, ?_⟩ <;> intros <;>
                              simp_all⟩
            | none =>
              simp only [hct] at hm
              injection hm with hbase
              subst hbase
              exact ⟨by simp_all [ModeKeysOf], by
                            simp only [PriorityRespected]
                            refine ⟨?_, ?_, ?_, ?_, ?_, ?_⟩ <;> intros <;>
                              simp_all⟩

/-- Witness for `c1_exactly_one_mode`: scene takes priority over a bare
`r` and `colortemp`, which contribute no keys. -/
theorem c1_exactly_one_mode_witness :
    ModeKeysOf { state := true, sceneId := some 5, dimming := some 200 }
    ∧ PriorityRespected
        { state := true, scene := some (.name "Fireplace"),
          r := some (.int 10), colortemp := some (.int 3000),
          brightness := some (.int 200) }
        { state := true, sceneId := some 5, dimming := some 200 } :=
  c1_exactly_one_mode
    { state := true, scene := some (.name "Fireplace"),
      r := some (.int 10), colortemp := some (.int 3000),
      brightness := some (.int 200) }
    { state := true, sceneId := some 5, dimming := some 200 }
    rfl (by decide)

/-! ### C8: exactly when construction raises -/

/-- "Did the construction succeed (no exception)?" -/
def isOkE {α : Type} : Except WizError α → Bool
  | .ok _ => true
  | .error _ => false

/-- A value `_clamp` rejects: any non-integer. -/
def elemBad : PyNum → Bool
  | .int _ => false
  | .other _ => true

/-- A present numeric argument `_clamp` rejects. -/
def numBad : Option PyNum → Bool
  | some (.other _) => true
  | _ => false

/-- A bare `r`/`g`/`b` argument that still raises after `x or 0`: only a
*truthy* non-integer (a falsy one is coerced to the integer `0`). -/
def orZeroBad : Option PyNum → Bool
  | some (.other t) => t
  | _ => false

/-- A scene argument `_resolve_scene` rejects. -/
def sceneBad : SceneArg → Bool
  | .id i => !sceneIdValid i
  | .name s => (get_id_from_scene_name s).isNone

/-- An `rgbw` tuple `_set_rgbw` rejects: length below 3, or a non-integer
among the used positions 0..3. -/
def rgbwBad (t : List PyNum) : Bool :=
  match t with
  | t0 :: t1 :: t2 :: rest =>
    elemBad t0 || elemBad t1 || elemBad t2 ||
      (match rest with
       | [] => false
       | w0 :: _ => elemBad w0)
  | _ => true

/-- An `rgbww` tuple `_set_rgbww` rejects: length below 3, or a non-integer
among the used positions 0..4. -/
def rgbwwBad (t : List PyNum) : Bool :=
  match t with
  | t0 :: t1 :: t2 :: rest =>
    elemBad t0 || elemBad t1 || elemBad t2 ||
      (match rest with
       | [] => false
       | w0 :: rest2 =>
         elemBad w0 ||
           (match rest2 with
            | [] => false
            | c0 :: _ => elemBad c0))
  | _ => true

/-- A bare-r/g/b mode that raises: a truthy non-integer channel, or a
non-integer `warm_white`/`cold_white`. -/
def bareBad (a : BuilderArgs) : Bool :=
  orZeroBad a.r || orZeroBad a.g || orZeroBad a.b
    || numBad a.warm_white || numBad a.cold_white

/-- Whether the selected mode's arguments make construction raise. -/
def modeBad (a : BuilderArgs) : Bool :=
  match a.scene with
  | some sc => sceneBad sc
  | none =>
    match a.rgbww with
    | some t => rgbwwBad t
    | none =>
      match a.rgbw with
      | some t => rgbwBad t
      | none =>
        if a.r.isSome || a.g.isSome || a.b.isSome then bareBad a
        else numBad a.colortemp

/-- The amended raising condition for a `state=true` build. -/
def amendedRaises (a : BuilderArgs) : Bool :=
  modeBad a || numBad a.brightness || numBad a.speed || numBad a.ratio

theorem isOkE_clamp (v : PyNum) (lo hi : Int) :
    isOkE (clamp v lo hi) = !elemBad v := by
  cases v <;> rfl

theorem isOkE_resolve (sc : SceneArg) :
    isOkE (resolve_scene sc) = !sceneBad sc := by
  cases sc with
  | id i =>
    cases h : sceneIdValid i <;>
      simp [resolve_scene, sceneBad, h, isOkE]
  | name s =>
    cases h : get_id_from_scene_name s <;>
      simp [resolve_scene, sceneBad, h, isOkE]

theorem isOkE_set_rgbw (t : List PyNum) :
    isOkE (set_rgbw t) = !rgbwBad t := by
  rcases t with _ | ⟨t0, _ | ⟨t1, _ | ⟨t2, rest⟩⟩⟩
  · rfl
  · rfl
  · rfl
  · rcases rest with _ | ⟨w0, rest2⟩
    · cases t0 <;> cases t1 <;> cases t2 <;> rfl
    · cases t0 <;> cases t1 <;> cases t2 <;> cases w0 <;> rfl

theorem isOkE_set_rgbww (t : List PyNum) :
    isOkE (set_rgbww t) = !rgbwwBad t := by
  rcases t with _ | ⟨t0, _ | ⟨t1, _ | ⟨t2, rest⟩⟩⟩
  · rfl
  · rfl
  · rfl
  · rcases rest with _ | ⟨w0, rest2⟩
    · cases t0 <;> cases t1 <;> cases t2 <;> rfl
    · rcases rest2 with _ | ⟨c0, rest3⟩
      · cases t0 <;> cases t1 <;> cases t2 <;> cases w0 <;> rfl
      · cases t0 <;> cases t1 <;> cases t2 <;> cases w0 <;> cases c0 <;> rfl

theorem isOkE_clamp_orZero (x : Option PyNum) :
    isOkE (clamp (orZero x) 0 255) = !orZeroBad x := by
  rcases x with _ | (i | t)
  · rfl
  · rfl
  · cases t <;> rfl

theorem isOkE_applyCommon (a : BuilderArgs) (p : PilotParams) :
    isOkE (applyCommon a p) =
      !(numBad a.brightness || numBad a.speed || numBad a.ratio) := by
  rcases hbr : a.brightness with _ | (i | t) <;>
    rcases hsp : a.speed with _ | (j | u) <;>
      rcases hra : a.ratio with _ | (k | w) <;>
        simp [applyCommon, stepBrightness, stepSpeed, stepRatio, clamp,
              numBad, isOkE, hbr, hsp, hra]

theorem isOkE_modeParams (a : BuilderArgs) :
    isOkE (modeParams a) = !modeBad a := by
  cases hsc : a.scene with
  | some sc =>
    simp only [modeParams, modeBad, hsc]
    rw [← isOkE_resolve sc]
    cases hr : resolve_scene sc <;> simp [hr, isOkE]
  | none =>
    cases hww : a.rgbww with
    | some t =>
      simp only [modeParams, modeBad, hsc, hww]
      rw [← isOkE_set_rgbww t]
      cases hsr : set_rgbww t with
      | error e => simp [hsr, isOkE]
      | ok tup =>
        obtain ⟨rv, gv, bv, wv, cv⟩ := tup
        simp [hsr, isOkE]
    | none =>
      cases hrw : a.rgbw with
      | some t =>
        simp only [modeParams, modeBad, hsc, hww, hrw]
        rw [← isOkE_set_rgbw t]
        cases hsr : set_rgbw t with
        | error e => simp [hsr, isOkE]
        | ok tup =>
          obtain ⟨rv, gv, bv, wv⟩ := tup
          simp [hsr, isOkE]
      | none =>
        cases hbare : (a.r.isSome || a.g.isSome || a.b.isSome) with
        | true =>
          simp only [modeParams, modeBad, hsc, hww, hrw, hbare, if_true]
          cases hcr : clamp (orZero a.r) 0 255 with
          | error e =>
            have hr := isOkE_clamp_orZero a.r
            rw [hcr] at hr
            simp only [isOkE] at hr
            simp [isOkE, bareBad, ← hr]
          | ok rv =>
            have hr := isOkE_clamp_orZero a.r
            rw [hcr] at hr
            simp only [isOkE] at hr
            cases hcg : clamp (orZero a.g) 0 255 with
            | error e =>
              have hg := isOkE_clamp_orZero a.g
              rw [hcg] at hg
              simp only [isOkE] at hg
              simp [isOkE, bareBad, ← hr, ← hg]
            | ok gv =>
              have hg := isOkE_clamp_orZero a.g
              rw [hcg] at hg
              simp only [isOkE] at hg
              cases hcb : clamp (orZero a.b) 0 255 with
              | error e =>
                have hbb := isOkE_clamp_orZero a.b
                rw [hcb] at hbb
                simp only [isOkE] at hbb
                simp [isOkE, bareBad, ← hr, ← hg, ← hbb]
              | ok bv =>
                have hbb := isOkE_clamp_orZero a.b
                rw [hcb] at hbb
                simp only [isOkE] at hbb
                cases hwa : a.warm_white with
                | some vw =>
                  cases vw with
                  | int i =>
                    cases hca : a.cold_white with
                    | some vc =>
                      cases vc with
                      | int j =>
                        simp [hwa, hca, clamp, isOkE, bareBad, numBad,
                              ← hr, ← hg, ← hbb]
                      | other u =>
                        simp [hwa, hca, clamp, isOkE, bareBad, numBad,
                              ← hr, ← hg, ← hbb]
                    | none =>
                      simp [hwa, hca, clamp, isOkE, bareBad, numBad,
                            ← hr, ← hg, ← hbb]
                  | other u =>
                    simp [hwa, clamp, isOkE, bareBad, numBad,
                          ← hr, ← hg, ← hbb]
                | none =>
                  cases hca : a.cold_white with
                  | some vc =>
                    cases vc with
                    | int j =>
                      simp [hwa, hca, clamp, isOkE, bareBad, numBad,
                            ← hr, ← hg, ← hbb]
                    | other u =>
                      simp [hwa, hca, clamp, isOkE, bareBad, numBad,
                            ← hr, ← hg, ← hbb]
                  | none =>
                    simp [hwa, hca, clamp, isOkE, bareBad, numBad,
                          ← hr, ← hg, ← hbb]
        | false =>
          simp only [modeParams, modeBad, hsc, hww, hrw, hbare,
                     Bool.false_eq_true, if_false]
          cases hct : a.colortemp with
          | some v =>
            cases v with
            | int i => simp [hct, clamp, isOkE, numBad]
            | other u => simp [hct, clamp, isOkE, numBad]
          | none => simp [hct, isOkE, numBad]

theorem isOkE_build (a : BuilderArgs) (hs : a.state = true) :
    isOkE (build a) =
      (isOkE (modeParams a)
        && !(numBad a.brightness || numBad a.speed || numBad a.ratio)) := by
  unfold build
  rw [hs]
  cases hm : modeParams a with
  | error e => simp [hm, isOkE]
  | ok base =>
    simp only [hm]
    rw [isOkE_applyCommon a base]
    simp [isOkE]

/-- **C8 counterexample.** The claim says a used non-integer numeric
parameter always raises invalid-parameter. But `PilotBuilder(r=0.0)` (a
non-integer, *falsy* bare channel) succeeds: pilot.py line 68 computes
`r or 0`, which coerces the falsy `0.0` to the integer `0` before `_clamp`
sees it, producing `{"state": True, "r": 0, "g": 0, "b": 0}`. -/
theorem c8_counterexample :
    build { state := true, r := some (.other false) } =
      .ok { state := true, r := some 0, g := some 0, b := some 0 } := rfl

/-- **C8 (amended).** A `state=true` build raises (invalid-parameter) if
and only if: the scene argument is an unknown integer ID or a string whose
case-insensitive lookup fails; or the selected `rgbww`/`rgbw` tuple has
length < 3 or holds a non-integer in a used position; or, in bare-r/g/b
mode, a channel is a *truthy* non-integer (falsy non-integers are coerced
to 0 by `x or 0` and do not raise) or `warm_white`/`cold_white` is a
non-integer; or a used `colortemp`/`brightness`/`speed`/`ratio` is a
non-integer. In every other case construction succeeds. -/
theorem c8_raises_iff_amended (a : BuilderArgs) (hs : a.state = true) :
    isOkE (build a) = !amendedRaises a := by
  rw [isOkE_build a hs, isOkE_modeParams]
  unfold amendedRaises
  cases modeBad a <;> cases numBad a.brightness <;> cases numBad a.speed <;>
    cases numBad a.ratio <;> rfl

/-- Witness for `c8_raises_iff_amended`: an unknown integer scene ID. -/
theorem c8_raises_iff_amended_witness :
    isOkE (build { state := true, scene := some (.id 9999) }) =
      !amendedRaises { state := true, scene := some (.id 9999) } :=
  c8_raises_iff_amended { state := true, scene := some (.id 9999) } rfl

end Wiz
